import Mathlib

/-!
Verification of the RSGISLib excerpt: per-sensor DN-to-radiance calibration
(`src/calibration/RSGISStandardDN2RadianceCalibration.cpp`) and the ISODATA
clustering classifier (`src/classifier/RSGISISODATAImageClassifier.h`).

Modelling conventions:
* C++ `float`/`double` values are modelled as `ℚ` (exact arithmetic);
* a `float*` buffer is a `List ℚ`, `output[i] = v` is `List.set i v`;
* `int(x)` truncation of a float toward zero is `truncInt`;
* a calibration `calcImageValue` call returns a `CalcResult`: the (possibly
  partially written) output buffer together with an optional exception
  message, so that the state of the buffer on the exception path is visible;
* each sensor's per-band gains/offsets struct holds exactly the fields the
  `.cpp` reads; the `radGainOff` array of `numOutBands` entries is a list,
  whose length plays the role of `numOutBands`;
* Euclidean-distance comparisons in the ISODATA code are modelled by
  comparing squared distances (`sqDist`), which is order-equivalent.
-/

namespace RSGISLib

/-- C++ `int(x)`: truncation of a real value toward zero. -/
def truncInt (q : ℚ) : Int := if 0 ≤ q then ⌊q⌋ else ⌈q⌉

/-- Result of one `calcImageValue` call: the output buffer after the call,
plus the exception message if one was thrown. -/
structure CalcResult where
  err : Option String
  output : List ℚ

/-- The message of the band-range exception thrown by every calibration
`calcImageValue` (`RSGISImageCalcException`). -/
def bandRangeMsg : String := "Band is not within input image bands."

/-- Per-band parameters read by `RSGISLandsatRadianceCalibration` (and
`RSGISIRSRadianceCalibration`): band number, lMin, lMax, qCalMin, qCalMax. -/
structure LandsatRadianceGainsOffsets where
  band : Nat
  lMin : ℚ
  lMax : ℚ
  qCalMin : ℚ
  qCalMax : ℚ

/-- Per-band parameters read by `RSGISSPOTRadianceCalibration`. -/
structure SPOTRadianceGainsOffsets where
  band : Nat
  gain : ℚ

/-- Per-band parameters read by `RSGISIRSRadianceCalibration`. -/
structure IRSRadianceGainsOffsets where
  band : Nat
  lMin : ℚ
  lMax : ℚ
  qCalMin : ℚ
  qCalMax : ℚ

/-- Per-band parameters read by `RSGISQuickbird16bitRadianceCalibration`. -/
structure Quickbird16bitRadianceGainsOffsets where
  band : Nat
  calFactor : ℚ
  bandIntegrate : ℚ

/-- Per-band parameters read by `RSGISQuickbird8bitRadianceCalibration`. -/
structure Quickbird8bitRadianceGainsOffsets where
  band : Nat
  calFactor : ℚ
  k : ℚ
  bandIntegrate : ℚ

/-- Per-band parameters read by `RSGISWorldView2RadianceCalibration`. -/
structure WorldView2RadianceGainsOffsets where
  band : Nat
  calFactor : ℚ
  bandIntegrate : ℚ

/-- The shared loop shape of every calibration `calcImageValue`:
`for i in [0, numOutBands): if radGainOff[i].band > numBands throw;
output[i] = f(radGainOff[i], bandValues[i])`.  `band` projects the
configured band number out of the per-band struct and `f` is the sensor's
per-band formula.  On a throw the loop stops and the buffer keeps the
writes made so far, as in C++ where the exception propagates. -/
def calibLoop {α : Type} (band : α → Nat) (f : α → ℚ → ℚ) :
    List α → List ℚ → Nat → Nat → List ℚ → CalcResult
  | [], _, _, _, output => ⟨none, output⟩
  | g :: rest, bandValues, numBands, i, output =>
      if band g > numBands then ⟨some bandRangeMsg, output⟩
      else calibLoop band f rest bandValues numBands (i + 1)
        (output.set i (f g (bandValues.getD i 0)))

/-- The pure write part of `calibLoop` (no band check): used to state what
the loop computes when every configured band is in range. -/
def calibWrite {α : Type} (f : α → ℚ → ℚ) :
    List α → List ℚ → Nat → List ℚ → List ℚ
  | [], _, _, output => output
  | g :: rest, bandValues, i, output =>
      calibWrite f rest bandValues (i + 1)
        (output.set i (f g (bandValues.getD i 0)))

/-- Landsat per-band formula:
`gain = (lMax - lMin)/(qCalMax - qCalMin); gain*(v - qCalMin) + lMin`. -/
def landsatFormula (g : LandsatRadianceGainsOffsets) (v : ℚ) : ℚ :=
  (g.lMax - g.lMin) / (g.qCalMax - g.qCalMin) * (v - g.qCalMin) + g.lMin

/-- IRS per-band formula (identical in shape to the Landsat one). -/
def irsFormula (g : IRSRadianceGainsOffsets) (v : ℚ) : ℚ :=
  (g.lMax - g.lMin) / (g.qCalMax - g.qCalMin) * (v - g.qCalMin) + g.lMin

/-- The border branch of the Landsat calibration:
`for i in [0, n): output[i] = 0` starting at index `i`. -/
def writeZeros : Nat → Nat → List ℚ → List ℚ
  | 0, _, output => output
  | n + 1, i, output => writeZeros n (i + 1) (output.set i 0)

/-- `RSGISLandsatRadianceCalibration::calcImageValue`: if the first band
value truncates to 0 the pixel is image border and every output band is
written 0 with no band check; otherwise the checked gain/offset loop runs. -/
def landsatCalcImageValue (radGainOff : List LandsatRadianceGainsOffsets)
    (bandValues : List ℚ) (numBands : Nat) (output : List ℚ) : CalcResult :=
  if truncInt (bandValues.getD 0 0) = 0 then
    ⟨none, writeZeros radGainOff.length 0 output⟩
  else
    calibLoop LandsatRadianceGainsOffsets.band landsatFormula
      radGainOff bandValues numBands 0 output

/-- `RSGISSPOTRadianceCalibration::calcImageValue`:
`output[i] = bandValues[i] / gain`. -/
def spotCalcImageValue (radGainOff : List SPOTRadianceGainsOffsets)
    (bandValues : List ℚ) (numBands : Nat) (output : List ℚ) : CalcResult :=
  calibLoop SPOTRadianceGainsOffsets.band (fun g v => v / g.gain)
    radGainOff bandValues numBands 0 output

/-- `RSGISIRSRadianceCalibration::calcImageValue`:
`output[i] = gain * (bandValues[i] - qCalMin) + lMin`. -/
def irsCalcImageValue (radGainOff : List IRSRadianceGainsOffsets)
    (bandValues : List ℚ) (numBands : Nat) (output : List ℚ) : CalcResult :=
  calibLoop IRSRadianceGainsOffsets.band irsFormula
    radGainOff bandValues numBands 0 output

/-- `RSGISQuickbird16bitRadianceCalibration::calcImageValue`:
`output[i] = (bandValues[i] * calFactor) / bandIntegrate`. -/
def quickbird16bitCalcImageValue
    (radGainOff : List Quickbird16bitRadianceGainsOffsets)
    (bandValues : List ℚ) (numBands : Nat) (output : List ℚ) : CalcResult :=
  calibLoop Quickbird16bitRadianceGainsOffsets.band
    (fun g v => v * g.calFactor / g.bandIntegrate)
    radGainOff bandValues numBands 0 output

/-- `RSGISQuickbird8bitRadianceCalibration::calcImageValue`:
`output[i] = (bandValues[i] * calFactor * k) / bandIntegrate`. -/
def quickbird8bitCalcImageValue
    (radGainOff : List Quickbird8bitRadianceGainsOffsets)
    (bandValues : List ℚ) (numBands : Nat) (output : List ℚ) : CalcResult :=
  calibLoop Quickbird8bitRadianceGainsOffsets.band
    (fun g v => v * g.calFactor * g.k / g.bandIntegrate)
    radGainOff bandValues numBands 0 output

/-- `RSGISWorldView2RadianceCalibration::calcImageValue`:
`output[i] = (calFactor * bandValues[i]) / bandIntegrate`. -/
def worldView2CalcImageValue
    (radGainOff : List WorldView2RadianceGainsOffsets)
    (bandValues : List ℚ) (numBands : Nat) (output : List ℚ) : CalcResult :=
  calibLoop WorldView2RadianceGainsOffsets.band
    (fun g v => g.calFactor * v / g.bandIntegrate)
    radGainOff bandValues numBands 0 output

/-- A `Quickbird16bitRadianceGainsOffsets` carrying the same band,
calFactor and bandIntegrate as a WorldView2 one. -/
def toWorldView2 (g : Quickbird16bitRadianceGainsOffsets) :
    WorldView2RadianceGainsOffsets :=
  ⟨g.band, g.calFactor, g.bandIntegrate⟩

/-- The 16-bit Quickbird parameters obtained from 8-bit ones by dropping
the extra scale factor `k` (band, calFactor and bandIntegrate shared). -/
def toQuickbird16bit (g : Quickbird8bitRadianceGainsOffsets) :
    Quickbird16bitRadianceGainsOffsets :=
  ⟨g.band, g.calFactor, g.bandIntegrate⟩

/-- Modelled from the spec: a cluster centroid (`ClusterCentreISO`, declared
in `RSGISClassifier.h`, which is not part of the excerpt): stable integer
cluster ID, per-band mean vector (a running sum while in the working set),
per-band standard deviation vector (a running sum of squares while in the
working set), and population count. -/
structure ClusterCentreISO where
  id : Nat
  data : List ℚ
  stddev : List ℚ
  numPxl : Nat

/-- Squared Euclidean distance between two band-value vectors (compared in
place of the Euclidean distance, which is order-equivalent). -/
def sqDist : List ℚ → List ℚ → ℚ
  | a :: as, b :: bs => (a - b) * (a - b) + sqDist as bs
  | _, _ => 0

/-- Modelled from the spec: the Accumulator pass's nearest-centroid search
(`RSGISISODATACalcPixelClusterCalcImageVal::calcImageValue(float*, int)`,
whose `.cpp` body is not part of the excerpt): a running scan over the
published centroids keeping the closest seen so far, replacing it only on a
strictly smaller distance, so ties keep the first (lowest-ID) centroid. -/
def accumFindClosest (v : List ℚ) (cs : List ClusterCentreISO) :
    Option ClusterCentreISO :=
  cs.foldl (fun best c =>
    match best with
    | none => some c
    | some b => if sqDist v c.data < sqDist v b.data then some c else some b)
    none

/-- Modelled from the spec: the Labeler pass's nearest-centroid search
(`RSGISApplyISODATAClassifierCalcImageVal::calcImageValue(float*, int,
float*)`, whose `.cpp` body is not part of the excerpt): the minimum-distance
centroid with the earlier (lowest-ID) centroid preferred on ties. -/
def labelFindClosest (v : List ℚ) : List ClusterCentreISO →
    Option ClusterCentreISO
  | [] => none
  | c :: cs =>
      match labelFindClosest v cs with
      | none => some c
      | some b => if sqDist v c.data ≤ sqDist v b.data then some c else some b

/-- Modelled from the spec: the centroid the Accumulator pass assigns a
pixel to — none for a border pixel (first band truncates to 0, skipped),
otherwise the nearest published centroid. -/
def accumChoose (v : List ℚ) (cs : List ClusterCentreISO) :
    Option ClusterCentreISO :=
  if truncInt (v.getD 0 0) = 0 then none else accumFindClosest v cs

/-- Modelled from the spec: `RSGISISODATAClassifier::initClusterCentresRandom`
(its `.cpp` body is not part of the excerpt).  The stream of pixel vectors
the random sampler draws is passed in as a list, whose length is the bounded
number of sampling attempts; border pixels (first band truncating to 0) are
skipped; each accepted pixel becomes a centroid with the next sequential ID;
running out of draws before `k` centroids exist raises
`RSGISClassificationException`. -/
def seedRandom : Nat → Nat → List (List ℚ) →
    Except String (List ClusterCentreISO)
  | 0, _, _ => .ok []
  | _ + 1, _, [] => .error "RSGISClassificationException"
  | k + 1, nextId, v :: rest =>
      if truncInt (v.getD 0 0) = 0 then seedRandom (k + 1) nextId rest
      else
        match seedRandom k (nextId + 1) rest with
        | .ok cs => .ok (⟨nextId, v, List.replicate v.length 0, 0⟩ :: cs)
        | .error e => .error e

/-- Modelled from the spec: the seeding entry point for `k` clusters over a
given stream of sampled pixel vectors. -/
def initClusterCentresRandom (k : Nat) (draws : List (List ℚ)) :
    Except String (List ClusterCentreISO) :=
  seedRandom k 0 draws

/-- Number of valid (non-border) pixel vectors among the sampling draws. -/
def countValid : List (List ℚ) → Nat
  | [] => 0
  | v :: rest =>
      (if truncInt (v.getD 0 0) = 0 then 0 else 1) + countValid rest

/-- Modelled from the spec: the k-means++ sampling weight of a candidate
pixel — squared distance to the nearest already-chosen centre (represented
by its data vector), or 1 (uniform over valid pixels) while no centre has
been chosen yet.  A pixel of weight 0 has probability 0 and can never be
returned by the sampler. -/
def kppWeightV (v : List ℚ) : List (List ℚ) → ℚ
  | [] => 1
  | w :: ws => ws.foldl (fun m u => min m (sqDist v u)) (sqDist v w)

/-- Modelled from the spec: `RSGISISODATAClassifier::initClusterCentresKpp`
(its `.cpp` body is not part of the excerpt).  The weighted random choices
are abstracted into the draw stream: each element is the pixel the sampler
produced, and the stream's length bounds the sampling attempts.  Border
pixels and pixels of sampling weight 0 (already-chosen values, which the
distance-proportional distribution can never return) are skipped; each
accepted pixel becomes the next centroid and joins the chosen set that
weights the following draws; running out of draws before `k` centroids
exist raises `RSGISClassificationException`. -/
def seedKpp : Nat → Nat → List (List ℚ) → List (List ℚ) →
    Except String (List ClusterCentreISO)
  | 0, _, _, _ => .ok []
  | _ + 1, _, _, [] => .error "RSGISClassificationException"
  | k + 1, nextId, chosen, v :: rest =>
      if truncInt (v.getD 0 0) = 0 ∨ kppWeightV v chosen = 0 then
        seedKpp (k + 1) nextId chosen rest
      else
        match seedKpp k (nextId + 1) (chosen ++ [v]) rest with
        | .ok cs => .ok (⟨nextId, v, List.replicate v.length 0, 0⟩ :: cs)
        | .error e => .error e

/-- Modelled from the spec: the k-means++ seeding entry point for `k`
clusters over a given stream of sampled pixel vectors. -/
def initClusterCentresKpp (k : Nat) (draws : List (List ℚ)) :
    Except String (List ClusterCentreISO) :=
  seedKpp k 0 [] draws

/-- Number of valid pixels reachable by the k-means++ sampler within the
bounded stream of attempts: border draws and zero-weight draws are
unreachable, and each reachable draw joins the chosen set weighting the
rest of the stream. -/
def kppReachable (chosen : List (List ℚ)) : List (List ℚ) → Nat
  | [] => 0
  | v :: rest =>
      if truncInt (v.getD 0 0) = 0 ∨ kppWeightV v chosen = 0 then
        kppReachable chosen rest
      else 1 + kppReachable (chosen ++ [v]) rest

/-- State of `RSGISISODATACalcPixelClusterCalcImageVal` during one
Accumulator pass: the published centroid set read for nearest-centroid
lookup, the separate working set receiving sums / sums of squares / counts,
and the running distance total and valid-pixel count. -/
structure ISODATAAccumState where
  clusterCentres : List ClusterCentreISO
  newClusterCentres : List ClusterCentreISO
  sumDist : ℚ
  numVals : Nat

/-- Pointwise sum of two band vectors. -/
def zipAdd (a b : List ℚ) : List ℚ := List.zipWith (· + ·) a b

/-- Modelled from the spec: accumulate one pixel into the working centroid
with the given ID — add the pixel to the running band sums, its squares to
the running sums of squares, and bump the population count. -/
def addPixelToCluster (cid : Nat) (v : List ℚ)
    (cs : List ClusterCentreISO) : List ClusterCentreISO :=
  cs.map (fun c =>
    if c.id = cid then
      { c with
        data := zipAdd c.data v
        stddev := zipAdd c.stddev (v.map (fun x => x * x))
        numPxl := c.numPxl + 1 }
    else c)

/-- Modelled from the spec: one per-pixel step of the Accumulator pass
(`RSGISISODATACalcPixelClusterCalcImageVal::calcImageValue(float*, int)`,
whose `.cpp` body is not part of the excerpt): skip border pixels; otherwise
find the nearest published centroid, accumulate the pixel into the matching
working centroid, and add the pixel's (squared) distance to the running
total. -/
def accumStep (s : ISODATAAccumState) (v : List ℚ) : ISODATAAccumState :=
  if truncInt (v.getD 0 0) = 0 then s
  else
    match accumFindClosest v s.clusterCentres with
    | none => s
    | some c =>
        { s with
          newClusterCentres := addPixelToCluster c.id v s.newClusterCentres
          sumDist := s.sumDist + sqDist v c.data
          numVals := s.numVals + 1 }

/-- One full Accumulator pixel pass: fold `accumStep` over every pixel
vector the image-iteration framework supplies. -/
def accumPass (s : ISODATAAccumState) (pixels : List (List ℚ)) :
    ISODATAAccumState :=
  pixels.foldl accumStep s

/-- Modelled from the spec: merging two centroids closer than the merge
threshold into one whose mean, standard deviation and count are the
population-weighted combination; the lower (first) ID is kept. -/
def mergeCentres (a b : ClusterCentreISO) : ClusterCentreISO :=
  { id := a.id
    data := List.zipWith
      (fun x y => ((a.numPxl : ℚ) * x + (b.numPxl : ℚ) * y) /
        ((a.numPxl : ℚ) + (b.numPxl : ℚ))) a.data b.data
    stddev := List.zipWith
      (fun x y => ((a.numPxl : ℚ) * x + (b.numPxl : ℚ) * y) /
        ((a.numPxl : ℚ) + (b.numPxl : ℚ))) a.stddev b.stddev
    numPxl := a.numPxl + b.numPxl }

/-- Find the first centroid in the list within the merge threshold of `c`
(squared distance below `thr * thr`); return it with the remaining list. -/
def findClose (thr : ℚ) (c : ClusterCentreISO) :
    List ClusterCentreISO →
      Option (ClusterCentreISO × List ClusterCentreISO)
  | [] => none
  | d :: ds =>
      if sqDist c.data d.data < thr * thr then some (d, ds)
      else
        match findClose thr c ds with
        | some (d', ds') => some (d', d :: ds')
        | none => none

/-- Modelled from the spec: one merge step — find the lowest-ID pair of
centroids closer than the threshold (the store is kept in ID order, so the
first qualifying pair in list order) and replace it by the merged centroid;
`none` when no pair qualifies. -/
def mergeStep (thr : ℚ) : List ClusterCentreISO →
    Option (List ClusterCentreISO)
  | [] => none
  | c :: cs =>
      match findClose thr c cs with
      | some (d, rest) => some (mergeCentres c d :: rest)
      | none =>
          match mergeStep thr cs with
          | some cs' => some (c :: cs')
          | none => none

/-- Repeat `mergeStep` until no pair qualifies, with explicit fuel (each
step removes one centroid, so `cs.length` steps always suffice). -/
def mergeIter (thr : ℚ) : Nat → List ClusterCentreISO →
    List ClusterCentreISO
  | 0, cs => cs
  | fuel + 1, cs =>
      match mergeStep thr cs with
      | none => cs
      | some cs' => mergeIter thr fuel cs'

/-- Modelled from the spec: the merge operation of the Refinement
Controller — repeat pairwise merges until no two centroids are closer than
the threshold. -/
def mergeClusterCentres (thr : ℚ) (cs : List ClusterCentreISO) :
    List ClusterCentreISO :=
  mergeIter thr cs.length cs

/-- A geos `Envelope` as passed to the extent overloads (never read by any
of the modelled visitors). -/
structure Envelope where
  minX : ℚ
  maxX : ℚ
  minY : ℚ
  maxY : ℚ

namespace RSGISISODATACalcPixelClusterCalcImageVal

/-! The Accumulator visitor's `calcImageValue` overloads other than the one
it uses (`calcImageValue(float*, int)`): each inline body in the header is a
single `throw RSGISImageCalcException(...)` with the message transcribed
here verbatim. -/

/-- Overload `(float*, int, float*)`. -/
def calcImageValueOut (_bandValues : List ℚ) (_numBands : Int)
    (_output : List ℚ) : Except String Unit := .error "Not Implemented"

/-- Overload `(long*, unsigned int, float*, unsigned int)`. -/
def calcImageValueIntFloat (_intBandValues : List Int) (_numIntVals : Nat)
    (_floatBandValues : List ℚ) (_numFloatVals : Nat) :
    Except String Unit := .error "Not implemented"

/-- Overload `(long*, unsigned int, float*, unsigned int, float*)`. -/
def calcImageValueIntFloatOut (_intBandValues : List Int)
    (_numIntVals : Nat) (_floatBandValues : List ℚ) (_numFloatVals : Nat)
    (_output : List ℚ) : Except String Unit := .error "Not implemented"

/-- Overload `(float*, int, Envelope)`. -/
def calcImageValueExtent (_bandValues : List ℚ) (_numBands : Int)
    (_extent : Envelope) : Except String Unit := .error "Not Implemented"

/-- Overload `(float*, int, float*, Envelope)`. -/
def calcImageValueOutExtent (_bandValues : List ℚ) (_numBands : Int)
    (_output : List ℚ) (_extent : Envelope) : Except String Unit :=
  .error "Not Implemented"

/-- Overload `(float***, int, int, float*)`. -/
def calcImageValueWindow (_dataBlock : List (List (List ℚ)))
    (_numBands : Int) (_winSize : Int) (_output : List ℚ) :
    Except String Unit := .error "Not Implemented"

/-- Overload `(float***, int, int, float*, Envelope)`. -/
def calcImageValueWindowExtent (_dataBlock : List (List (List ℚ)))
    (_numBands : Int) (_winSize : Int) (_output : List ℚ)
    (_extent : Envelope) : Except String Unit := .error "No implemented"

/-- `calcImageValueCondition(float***, int, int, float*)`. -/
def calcImageValueCondition (_dataBlock : List (List (List ℚ)))
    (_numBands : Int) (_winSize : Int) (_output : List ℚ) :
    Except String Bool := .error "Not Implemented"

end RSGISISODATACalcPixelClusterCalcImageVal

namespace RSGISISODATACalcPixelClusterStdDevCalcImageVal

/-! The Std-Dev visitor's `calcImageValue` overloads other than the one it
uses (`calcImageValue(float*, int)`), transcribed from the header. -/

/-- Overload `(float*, int, float*)`. -/
def calcImageValueOut (_bandValues : List ℚ) (_numBands : Int)
    (_output : List ℚ) : Except String Unit := .error "Not Implemented"

/-- Overload `(long*, unsigned int, float*, unsigned int)`. -/
def calcImageValueIntFloat (_intBandValues : List Int) (_numIntVals : Nat)
    (_floatBandValues : List ℚ) (_numFloatVals : Nat) :
    Except String Unit := .error "Not implemented"

/-- Overload `(long*, unsigned int, float*, unsigned int, float*)`. -/
def calcImageValueIntFloatOut (_intBandValues : List Int)
    (_numIntVals : Nat) (_floatBandValues : List ℚ) (_numFloatVals : Nat)
    (_output : List ℚ) : Except String Unit := .error "Not implemented"

/-- Overload `(float*, int, Envelope)`. -/
def calcImageValueExtent (_bandValues : List ℚ) (_numBands : Int)
    (_extent : Envelope) : Except String Unit := .error "Not Implemented"

/-- Overload `(float*, int, float*, Envelope)`. -/
def calcImageValueOutExtent (_bandValues : List ℚ) (_numBands : Int)
    (_output : List ℚ) (_extent : Envelope) : Except String Unit :=
  .error "Not Implemented"

/-- Overload `(float***, int, int, float*)`. -/
def calcImageValueWindow (_dataBlock : List (List (List ℚ)))
    (_numBands : Int) (_winSize : Int) (_output : List ℚ) :
    Except String Unit := .error "Not Implemented"

/-- Overload `(float***, int, int, float*, Envelope)`. -/
def calcImageValueWindowExtent (_dataBlock : List (List (List ℚ)))
    (_numBands : Int) (_winSize : Int) (_output : List ℚ)
    (_extent : Envelope) : Except String Unit := .error "No implemented"

/-- `calcImageValueCondition(float***, int, int, float*)`. -/
def calcImageValueCondition (_dataBlock : List (List (List ℚ)))
    (_numBands : Int) (_winSize : Int) (_output : List ℚ) :
    Except String Bool := .error "Not Implemented"

end RSGISISODATACalcPixelClusterStdDevCalcImageVal

namespace RSGISApplyISODATAClassifierCalcImageVal

/-! The Labeler visitor's `calcImageValue` overloads other than the one it
uses (`calcImageValue(float*, int, float*)`), transcribed from the
header. -/

/-- Overload `(float*, int)`. -/
def calcImageValueStat (_bandValues : List ℚ) (_numBands : Int) :
    Except String Unit := .error "Not Implemented"

/-- Overload `(long*, unsigned int, float*, unsigned int)`. -/
def calcImageValueIntFloat (_intBandValues : List Int) (_numIntVals : Nat)
    (_floatBandValues : List ℚ) (_numFloatVals : Nat) :
    Except String Unit := .error "Not implemented"

/-- Overload `(long*, unsigned int, float*, unsigned int, float*)`. -/
def calcImageValueIntFloatOut (_intBandValues : List Int)
    (_numIntVals : Nat) (_floatBandValues : List ℚ) (_numFloatVals : Nat)
    (_output : List ℚ) : Except String Unit := .error "Not implemented"

/-- Overload `(float*, int, Envelope)`. -/
def calcImageValueExtent (_bandValues : List ℚ) (_numBands : Int)
    (_extent : Envelope) : Except String Unit := .error "Not Implemented"

/-- Overload `(float*, int, float*, Envelope)`. -/
def calcImageValueOutExtent (_bandValues : List ℚ) (_numBands : Int)
    (_output : List ℚ) (_extent : Envelope) : Except String Unit :=
  .error "Not Implemented"

/-- Overload `(float***, int, int, float*)`. -/
def calcImageValueWindow (_dataBlock : List (List (List ℚ)))
    (_numBands : Int) (_winSize : Int) (_output : List ℚ) :
    Except String Unit := .error "Not Implemented"

/-- Overload `(float***, int, int, float*, Envelope)`. -/
def calcImageValueWindowExtent (_dataBlock : List (List (List ℚ)))
    (_numBands : Int) (_winSize : Int) (_output : List ℚ)
    (_extent : Envelope) : Except String Unit := .error "No implemented"

/-- `calcImageValueCondition(float***, int, int, float*)`. -/
def calcImageValueCondition (_dataBlock : List (List (List ℚ)))
    (_numBands : Int) (_winSize : Int) (_output : List ℚ) :
    Except String Bool := .error "Not Implemented"

end RSGISApplyISODATAClassifierCalcImageVal

/-! ### Helper lemmas -/

theorem accumStep_clusterCentres (s : ISODATAAccumState) (v : List ℚ) :
    (accumStep s v).clusterCentres = s.clusterCentres := by
  unfold accumStep
  split
  · rfl
  · split <;> rfl

theorem findClose_length (thr : ℚ) (c : ClusterCentreISO) :
    ∀ (ds : List ClusterCentreISO) (d : ClusterCentreISO)
      (rest : List ClusterCentreISO),
      findClose thr c ds = some (d, rest) → rest.length + 1 = ds.length := by
  intro ds
  induction ds with
  | nil => intro d rest h; simp [findClose] at h
  | cons e ds ih =>
      intro d rest h
      unfold findClose at h
      split at h
      · obtain ⟨rfl, rfl⟩ := Prod.mk.injEq .. ▸ Option.some.inj h
        simp
      · split at h
        · next d' ds' hfc =>
            obtain ⟨rfl, rfl⟩ := Prod.mk.injEq .. ▸ Option.some.inj h
            have := ih d' ds' hfc
            simp [← this]
        · exact absurd h (by simp)

theorem mergeStep_length (thr : ℚ) :
    ∀ (cs cs' : List ClusterCentreISO),
      mergeStep thr cs = some cs' → cs'.length + 1 = cs.length := by
  intro cs
  induction cs with
  | nil => intro cs' h; simp [mergeStep] at h
  | cons c cs ih =>
      intro cs' h
      unfold mergeStep at h
      split at h
      · next d rest hfc =>
          cases Option.some.inj h
          have := findClose_length thr c cs d rest hfc
          simp [← this]
      · split at h
        · next t ht =>
            cases Option.some.inj h
            have := ih t ht
            simp [← this]
        · exact absurd h (by simp)

theorem mergeIter_none (thr : ℚ) :
    ∀ (fuel : Nat) (cs : List ClusterCentreISO), cs.length ≤ fuel →
      mergeStep thr (mergeIter thr fuel cs) = none := by
  intro fuel
  induction fuel with
  | zero =>
      intro cs h
      have : cs = [] := List.eq_nil_of_length_eq_zero (Nat.le_zero.mp h)
      subst this
      rfl
  | succ fuel ih =>
      intro cs h
      unfold mergeIter
      cases hstep : mergeStep thr cs with
      | none => exact hstep
      | some cs' =>
          refine ih cs' ?_
          have := mergeStep_length thr cs cs' hstep
          omega

theorem mergeIter_fix (thr : ℚ) (cs : List ClusterCentreISO)
    (h : mergeStep thr cs = none) : mergeIter thr cs.length cs = cs := by
  cases cs with
  | nil => rfl
  | cons c t => simp [mergeIter, h]

theorem getD_set_ne {α : Type} (l : List α) (i k : Nat) (a d : α)
    (h : i ≠ k) : (l.set i a).getD k d = l.getD k d := by
  rw [List.getD_eq_getElem?_getD, List.getElem?_set_ne h,
    ← List.getD_eq_getElem?_getD]

theorem getD_set_lt {α : Type} (l : List α) (i : Nat) (a d : α)
    (h : i < l.length) : (l.set i a).getD i d = a := by
  rw [List.getD_eq_getElem?_getD, List.getElem?_set_eq_of_lt a h,
    Option.getD_some]

theorem getD_map {α β : Type} (t : α → β) (l : List α) (i : Nat) (d : α) :
    (l.map t).getD i (t d) = t (l.getD i d) := by
  induction l generalizing i with
  | nil => cases i <;> rfl
  | cons a l ih => cases i with
      | zero => rfl
      | succ n => exact ih n

theorem calibLoop_ok {α : Type} (band : α → Nat) (f : α → ℚ → ℚ) :
    ∀ (gos : List α) (bv : List ℚ) (nb i : Nat) (out : List ℚ),
      (∀ g ∈ gos, band g ≤ nb) →
      calibLoop band f gos bv nb i out = ⟨none, calibWrite f gos bv i out⟩ := by
  intro gos
  induction gos with
  | nil => intro bv nb i out _; rfl
  | cons g gos ih =>
      intro bv nb i out h
      have hg : ¬ band g > nb := not_lt.mpr (h g (List.mem_cons_self g gos))
      show (if band g > nb then _ else _) = _
      rw [if_neg hg]
      exact ih bv nb (i + 1) _ (fun p hp => h p (List.mem_cons_of_mem g hp))

theorem calibWrite_getD_lo {α : Type} (f : α → ℚ → ℚ) :
    ∀ (gos : List α) (bv : List ℚ) (i : Nat) (out : List ℚ) (k : Nat) (d : ℚ),
      k < i → (calibWrite f gos bv i out).getD k d = out.getD k d := by
  intro gos
  induction gos with
  | nil => intro bv i out k d _; rfl
  | cons g gos ih =>
      intro bv i out k d hk
      show (calibWrite f gos bv (i + 1) (out.set i (f g (bv.getD i 0)))).getD k d = _
      rw [ih bv (i + 1) _ k d (Nat.lt_succ_of_lt hk),
        getD_set_ne _ _ _ _ _ (Nat.ne_of_gt hk)]

theorem calibWrite_getD_hi {α : Type} (f : α → ℚ → ℚ) :
    ∀ (gos : List α) (bv : List ℚ) (i : Nat) (out : List ℚ) (k : Nat) (d : ℚ),
      i + gos.length ≤ k →
      (calibWrite f gos bv i out).getD k d = out.getD k d := by
  intro gos
  induction gos with
  | nil => intro bv i out k d _; rfl
  | cons g gos ih =>
      intro bv i out k d hk
      show (calibWrite f gos bv (i + 1) (out.set i (f g (bv.getD i 0)))).getD k d = _
      rw [ih bv (i + 1) _ k d (by simp at hk; omega),
        getD_set_ne _ _ _ _ _ (by simp at hk; omega)]

theorem calibWrite_getD_eq {α : Type} (f : α → ℚ → ℚ) (g₀ : α) :
    ∀ (gos : List α) (bv : List ℚ) (i : Nat) (out : List ℚ) (k : Nat) (d : ℚ),
      i ≤ k → k < i + gos.length → k < out.length →
      (calibWrite f gos bv i out).getD k d =
        f (gos.getD (k - i) g₀) (bv.getD k 0) := by
  intro gos
  induction gos with
  | nil => intro bv i out k d h1 h2 _; simp at h2; omega
  | cons g gos ih =>
      intro bv i out k d h1 h2 h3
      show (calibWrite f gos bv (i + 1) (out.set i (f g (bv.getD i 0)))).getD k d = _
      rcases Nat.eq_or_lt_of_le h1 with heq | hlt
      · subst heq
        rw [calibWrite_getD_lo f gos bv (i + 1) _ i d (Nat.lt_succ_self i),
          getD_set_lt _ _ _ _ h3, Nat.sub_self, List.getD_cons_zero]
      · have hk : k - i = (k - (i + 1)) + 1 := by omega
        rw [ih bv (i + 1) _ k d hlt (by simp at h2 ⊢; omega) (by simpa using h3),
          hk, List.getD_cons_succ]

theorem writeZeros_getD_lo :
    ∀ (n i : Nat) (out : List ℚ) (k : Nat) (d : ℚ),
      k < i → (writeZeros n i out).getD k d = out.getD k d := by
  intro n
  induction n with
  | zero => intro i out k d _; rfl
  | succ n ih =>
      intro i out k d hk
      show (writeZeros n (i + 1) (out.set i 0)).getD k d = _
      rw [ih (i + 1) _ k d (Nat.lt_succ_of_lt hk),
        getD_set_ne _ _ _ _ _ (Nat.ne_of_gt hk)]

theorem writeZeros_getD_in :
    ∀ (n i : Nat) (out : List ℚ) (k : Nat) (d : ℚ),
      i ≤ k → k < i + n → k < out.length →
      (writeZeros n i out).getD k d = 0 := by
  intro n
  induction n with
  | zero => intro i out k d h1 h2 _; omega
  | succ n ih =>
      intro i out k d h1 h2 h3
      show (writeZeros n (i + 1) (out.set i 0)).getD k d = 0
      rcases Nat.eq_or_lt_of_le h1 with heq | hlt
      · subst heq
        rw [writeZeros_getD_lo n (i + 1) _ i d (Nat.lt_succ_self i),
          getD_set_lt _ _ _ _ h3]
      · exact ih (i + 1) _ k d hlt (by omega) (by simpa using h3)

theorem writeZeros_getD_hi :
    ∀ (n i : Nat) (out : List ℚ) (k : Nat) (d : ℚ),
      i + n ≤ k → (writeZeros n i out).getD k d = out.getD k d := by
  intro n
  induction n with
  | zero => intro i out k d _; rfl
  | succ n ih =>
      intro i out k d hk
      show (writeZeros n (i + 1) (out.set i 0)).getD k d = _
      rw [ih (i + 1) _ k d (by omega),
        getD_set_ne _ _ _ _ _ (by omega)]

theorem calibLoop_err {α : Type} (band : α → Nat) (f : α → ℚ → ℚ) :
    ∀ (pre : List α) (g : α) (post : List α) (bv : List ℚ) (nb i : Nat)
      (out : List ℚ),
      (∀ p ∈ pre, band p ≤ nb) → band g > nb →
      (calibLoop band f (pre ++ g :: post) bv nb i out).err =
        some bandRangeMsg ∧
      ∀ k d, i + pre.length ≤ k →
        (calibLoop band f (pre ++ g :: post) bv nb i out).output.getD k d =
          out.getD k d := by
  intro pre
  induction pre with
  | nil =>
      intro g post bv nb i out _ hg
      have hstep : calibLoop band f ([] ++ g :: post) bv nb i out =
          ⟨some bandRangeMsg, out⟩ := by
        show (if band g > nb then _ else _ : CalcResult) = _
        rw [if_pos hg]
      rw [hstep]
      exact ⟨rfl, fun k d _ => rfl⟩
  | cons p pre ih =>
      intro g post bv nb i out hpre hg
      have hp : ¬ band p > nb := not_lt.mpr (hpre p (List.mem_cons_self p pre))
      have step : calibLoop band f ((p :: pre) ++ g :: post) bv nb i out =
          calibLoop band f (pre ++ g :: post) bv nb (i + 1)
            (out.set i (f p (bv.getD i 0))) := by
        show (if band p > nb then _ else _ : CalcResult) = _
        rw [if_neg hp]
        rfl
      obtain ⟨herr, hout⟩ := ih g post bv nb (i + 1)
        (out.set i (f p (bv.getD i 0)))
        (fun q hq => hpre q (List.mem_cons_of_mem p hq)) hg
      refine ⟨step ▸ herr, fun k d hk => ?_⟩
      rw [step]
      have hk' : (i + 1) + pre.length ≤ k := by simp at hk; omega
      rw [hout k d hk', getD_set_ne _ _ _ _ _ (by omega)]

theorem calibLoop_map {α β : Type} (bandA : α → Nat) (fA : α → ℚ → ℚ)
    (bandB : β → Nat) (fB : β → ℚ → ℚ) (t : α → β)
    (hband : ∀ g, bandB (t g) = bandA g)
    (hf : ∀ g x, fB (t g) x = fA g x) :
    ∀ (gos : List α) (bv : List ℚ) (nb i : Nat) (out : List ℚ),
      calibLoop bandB fB (gos.map t) bv nb i out =
        calibLoop bandA fA gos bv nb i out := by
  intro gos
  induction gos with
  | nil => intro bv nb i out; rfl
  | cons g gos ih =>
      intro bv nb i out
      show (if bandB (t g) > nb then _ else _ : CalcResult) = _
      rw [hband g]
      by_cases hg : bandA g > nb
      · rw [if_pos hg]
        show _ = (if bandA g > nb then _ else _ : CalcResult)
        rw [if_pos hg]
      · rw [if_neg hg]
        show _ = (if bandA g > nb then _ else _ : CalcResult)
        rw [if_neg hg, hf g (bv.getD i 0)]
        exact ih bv nb (i + 1) _

theorem calibLoop_congr {α : Type} (band : α → Nat) (f : α → ℚ → ℚ)
    (nb : Nat) :
    ∀ {gos gos' : List α},
      List.Forall₂ (fun g g' =>
        band g ≤ nb ∧ band g' ≤ nb ∧ ∀ x, f g x = f g' x) gos gos' →
      ∀ (bv : List ℚ) (i : Nat) (out : List ℚ),
        calibLoop band f gos bv nb i out =
          calibLoop band f gos' bv nb i out := by
  intro gos gos' h
  induction h with
  | nil => intro bv i out; rfl
  | cons hr _ ih =>
      intro bv i out
      obtain ⟨hg, hg', hfx⟩ := hr
      show (if _ > nb then _ else _ : CalcResult) =
        (if _ > nb then _ else _ : CalcResult)
      rw [if_neg (not_lt.mpr hg), if_neg (not_lt.mpr hg'), hfx]
      exact ih bv (i + 1) _

theorem accumFoldl_some (v : List ℚ) :
    ∀ (cs : List ClusterCentreISO) (b : ClusterCentreISO),
      List.foldl (fun best c =>
        match best with
        | none => some c
        | some b' => if sqDist v c.data < sqDist v b'.data then some c
            else some b') (some b) cs =
      some ((labelFindClosest v cs).elim b (fun d =>
        if sqDist v b.data ≤ sqDist v d.data then b else d)) := by
  intro cs
  induction cs with
  | nil => intro b; rfl
  | cons c cs ih =>
      intro b
      rw [List.foldl_cons]
      show List.foldl _ (if sqDist v c.data < sqDist v b.data
        then some c else some b) cs = _
      rw [← apply_ite some, ih]
      cases h : labelFindClosest v cs with
      | none =>
          simp only [labelFindClosest, h, Option.elim_none, Option.elim_some]
          split_ifs <;> first | rfl | (exfalso; linarith)
      | some e =>
          by_cases hce : sqDist v c.data ≤ sqDist v e.data
          · simp only [labelFindClosest, h, if_pos hce, Option.elim_some]
            split_ifs <;> first | rfl | (exfalso; linarith)
          · simp only [labelFindClosest, h, if_neg hce, Option.elim_some]
            split_ifs <;> first | rfl | (exfalso; linarith)

/-! ### Claim theorems -/

theorem seedRandom_spec :
    ∀ (draws : List (List ℚ)) (k nextId : Nat),
      (k ≤ countValid draws →
        ∃ cs, seedRandom k nextId draws = .ok cs ∧ cs.length = k) ∧
      (countValid draws < k →
        seedRandom k nextId draws = .error "RSGISClassificationException") := by
  intro draws
  induction draws with
  | nil =>
      intro k nextId
      constructor
      · intro hk
        have : k = 0 := Nat.le_zero.mp hk
        subst this
        exact ⟨[], rfl, rfl⟩
      · intro hk
        cases k with
        | zero => exact absurd hk (by simp [countValid])
        | succ m => rfl
  | cons v rest ih =>
      intro k nextId
      cases k with
      | zero =>
          refine ⟨fun _ => ⟨[], rfl, rfl⟩, fun hk => absurd hk (by omega)⟩
      | succ m =>
          have hsr : seedRandom (m + 1) nextId (v :: rest) =
              if truncInt (v.getD 0 0) = 0 then seedRandom (m + 1) nextId rest
              else
                match seedRandom m (nextId + 1) rest with
                | .ok cs =>
                    .ok (⟨nextId, v, List.replicate v.length 0, 0⟩ :: cs)
                | .error e => .error e := rfl
          have hcv : countValid (v :: rest) =
              (if truncInt (v.getD 0 0) = 0 then 0 else 1) +
                countValid rest := rfl
          by_cases hb : truncInt (v.getD 0 0) = 0
          · rw [hsr, if_pos hb, hcv, if_pos hb, Nat.zero_add]
            exact ih (m + 1) nextId
          · rw [hsr, if_neg hb, hcv, if_neg hb]
            constructor
            · intro hk
              obtain ⟨cs, hok, hlen⟩ := (ih m (nextId + 1)).1 (by omega)
              exact ⟨⟨nextId, v, List.replicate v.length 0, 0⟩ :: cs,
                by rw [hok], by simp [hlen]⟩
            · intro hk
              rw [(ih m (nextId + 1)).2 (by omega)]

theorem seedKpp_spec :
    ∀ (draws : List (List ℚ)) (k nextId : Nat) (chosen : List (List ℚ)),
      (k ≤ kppReachable chosen draws →
        ∃ cs, seedKpp k nextId chosen draws = .ok cs ∧ cs.length = k) ∧
      (kppReachable chosen draws < k →
        seedKpp k nextId chosen draws =
          .error "RSGISClassificationException") := by
  intro draws
  induction draws with
  | nil =>
      intro k nextId chosen
      constructor
      · intro hk
        have : k = 0 := Nat.le_zero.mp hk
        subst this
        exact ⟨[], rfl, rfl⟩
      · intro hk
        cases k with
        | zero => exact absurd hk (by simp [kppReachable])
        | succ m => rfl
  | cons v rest ih =>
      intro k nextId chosen
      cases k with
      | zero =>
          refine ⟨fun _ => ⟨[], rfl, rfl⟩, fun hk => absurd hk (by omega)⟩
      | succ m =>
          have hsr : seedKpp (m + 1) nextId chosen (v :: rest) =
              if truncInt (v.getD 0 0) = 0 ∨ kppWeightV v chosen = 0 then
                seedKpp (m + 1) nextId chosen rest
              else
                match seedKpp m (nextId + 1) (chosen ++ [v]) rest with
                | .ok cs =>
                    .ok (⟨nextId, v, List.replicate v.length 0, 0⟩ :: cs)
                | .error e => .error e := rfl
          have hcv : kppReachable chosen (v :: rest) =
              if truncInt (v.getD 0 0) = 0 ∨ kppWeightV v chosen = 0 then
                kppReachable chosen rest
              else 1 + kppReachable (chosen ++ [v]) rest := rfl
          by_cases hb : truncInt (v.getD 0 0) = 0 ∨ kppWeightV v chosen = 0
          · rw [hsr, if_pos hb, hcv, if_pos hb]
            exact ih (m + 1) nextId chosen
          · rw [hsr, if_neg hb, hcv, if_neg hb]
            constructor
            · intro hk
              obtain ⟨cs, hok, hlen⟩ :=
                (ih m (nextId + 1) (chosen ++ [v])).1 (by omega)
              exact ⟨⟨nextId, v, List.replicate v.length 0, 0⟩ :: cs,
                by rw [hok], by simp [hlen]⟩
            · intro hk
              rw [(ih m (nextId + 1) (chosen ++ [v])).2 (by omega)]

/-- C4: each seeding entry point — random
(`initClusterCentresRandom`) and k-means++ (`initClusterCentresKpp`) —
leaves the centroid store with exactly `k` centroids whenever at least `k`
valid (non-border, and for k-means++ nonzero-weight) pixels are reachable
within the bounded stream of sampling draws, and raises
`RSGISClassificationException` when `k` exceeds that number. -/
theorem c4_seeding_yields_k_or_fails (k : Nat) (draws : List (List ℚ)) :
    ((k ≤ countValid draws →
      ∃ cs, initClusterCentresRandom k draws = .ok cs ∧ cs.length = k) ∧
    (countValid draws < k →
      initClusterCentresRandom k draws =
        .error "RSGISClassificationException")) ∧
    ((k ≤ kppReachable [] draws →
      ∃ cs, initClusterCentresKpp k draws = .ok cs ∧ cs.length = k) ∧
    (kppReachable [] draws < k →
      initClusterCentresKpp k draws =
        .error "RSGISClassificationException")) :=
  ⟨seedRandom_spec draws k 0, seedKpp_spec draws k 0 []⟩

/-- Witness for C4: two valid pixels among three draws seed two clusters
under either seeder, and asking for three clusters fails under either. -/
theorem c4_seeding_yields_k_or_fails_witness :
    ((∃ cs, initClusterCentresRandom 2 [[0, 1], [3], [4]] = .ok cs ∧
      cs.length = 2) ∧
    initClusterCentresRandom 3 [[0, 1], [3], [4]] =
      .error "RSGISClassificationException") ∧
    ((∃ cs, initClusterCentresKpp 2 [[0, 1], [3], [4]] = .ok cs ∧
      cs.length = 2) ∧
    initClusterCentresKpp 3 [[0, 1], [3], [4]] =
      .error "RSGISClassificationException") :=
  ⟨⟨(c4_seeding_yields_k_or_fails 2 [[0, 1], [3], [4]]).1.1
      (by norm_num [countValid, truncInt]),
    (c4_seeding_yields_k_or_fails 3 [[0, 1], [3], [4]]).1.2
      (by norm_num [countValid, truncInt])⟩,
   ⟨(c4_seeding_yields_k_or_fails 2 [[0, 1], [3], [4]]).2.1
      (by norm_num [kppReachable, kppWeightV, sqDist, truncInt]),
    (c4_seeding_yields_k_or_fails 3 [[0, 1], [3], [4]]).2.2
      (by norm_num [kppReachable, kppWeightV, sqDist, truncInt])⟩⟩

/-- C5: during a single Accumulator pixel pass the published centroid set
(`clusterCentres`) is never mutated — each per-pixel step, and hence the
fold of the whole pass, leaves it unchanged; accumulation writes only into
the separate `newClusterCentres` working set. -/
theorem c5_accumulator_published_read_only :
    (∀ (s : ISODATAAccumState) (v : List ℚ),
      (accumStep s v).clusterCentres = s.clusterCentres) ∧
    (∀ (s : ISODATAAccumState) (pixels : List (List ℚ)),
      (accumPass s pixels).clusterCentres = s.clusterCentres) := by
  refine ⟨accumStep_clusterCentres, ?_⟩
  intro s pixels
  induction pixels generalizing s with
  | nil => rfl
  | cons v rest ih =>
      show (List.foldl accumStep s (v :: rest)).clusterCentres = _
      rw [List.foldl_cons]
      exact (ih (accumStep s v)).trans (accumStep_clusterCentres s v)

/-- Counterexample to C1 as stated: in the SPOT calibration with
`radGainOff = [{band 1, gain 1}, {band 5, gain 1}]`, `bandValues = [3, 4]`,
`numBands = 2` and an all-zero output buffer, the second configured band is
out of range, the band-range exception is raised — yet `output[0]` has
already been written (the buffer ends up `[3, 0]`, not `[0, 0]`), so an
output entry IS modified on the error path. -/
theorem c1_counterexample :
    (spotCalcImageValue [⟨1, 1⟩, ⟨5, 1⟩] [3, 4] 2 [0, 0]).err =
      some bandRangeMsg ∧
    (spotCalcImageValue [⟨1, 1⟩, ⟨5, 1⟩] [3, 4] 2 [0, 0]).output ≠
      [0, 0] := by
  constructor
  · norm_num [spotCalcImageValue, calibLoop]
  · norm_num [spotCalcImageValue, calibLoop]

/-- C1 (amended): if any configured band index exceeds `numBands` (for
Landsat, provided the pixel is not the border sentinel), the call raises
the band-range exception upon reaching the first offending index; the check
at each index precedes that index's write, so no output entry at or after
the first offending index is modified — entries before it, however, have
already received their calibrated values. -/
theorem c1_band_range_abort :
    (∀ (pre : List SPOTRadianceGainsOffsets) (g : SPOTRadianceGainsOffsets)
      (post : List SPOTRadianceGainsOffsets) (bv : List ℚ) (nb : Nat)
      (out : List ℚ),
      (∀ p ∈ pre, p.band ≤ nb) → g.band > nb →
      (spotCalcImageValue (pre ++ g :: post) bv nb out).err =
        some bandRangeMsg ∧
      ∀ k d, pre.length ≤ k →
        (spotCalcImageValue (pre ++ g :: post) bv nb out).output.getD k d =
          out.getD k d) ∧
    (∀ (pre : List LandsatRadianceGainsOffsets)
      (g : LandsatRadianceGainsOffsets)
      (post : List LandsatRadianceGainsOffsets) (bv : List ℚ) (nb : Nat)
      (out : List ℚ),
      truncInt (bv.getD 0 0) ≠ 0 →
      (∀ p ∈ pre, p.band ≤ nb) → g.band > nb →
      (landsatCalcImageValue (pre ++ g :: post) bv nb out).err =
        some bandRangeMsg ∧
      ∀ k d, pre.length ≤ k →
        (landsatCalcImageValue (pre ++ g :: post) bv nb out).output.getD
          k d = out.getD k d) := by
  constructor
  · intro pre g post bv nb out hpre hg
    have h := calibLoop_err SPOTRadianceGainsOffsets.band
      (fun g v => v / g.gain) pre g post bv nb 0 out hpre hg
    exact ⟨h.1, fun k d hk => h.2 k d (by omega)⟩
  · intro pre g post bv nb out hb hpre hg
    have hcall : landsatCalcImageValue (pre ++ g :: post) bv nb out =
        calibLoop LandsatRadianceGainsOffsets.band landsatFormula
          (pre ++ g :: post) bv nb 0 out := by
      unfold landsatCalcImageValue
      rw [if_neg hb]
    rw [hcall]
    have h := calibLoop_err LandsatRadianceGainsOffsets.band landsatFormula
      pre g post bv nb 0 out hpre hg
    exact ⟨h.1, fun k d hk => h.2 k d (by omega)⟩

/-- Witness for C1 (amended) at concrete SPOT and Landsat inputs. -/
theorem c1_band_range_abort_witness :
    ((spotCalcImageValue [⟨1, 1⟩, ⟨5, 1⟩] [3, 4] 2 [0, 0]).err =
        some bandRangeMsg ∧
      (spotCalcImageValue [⟨1, 1⟩, ⟨5, 1⟩] [3, 4] 2 [0, 0]).output.getD
        1 0 = (0 : ℚ)) ∧
    (landsatCalcImageValue [⟨5, 0, 1, 0, 1⟩] [3] 2 [7]).err =
      some bandRangeMsg := by
  obtain ⟨hspot, hlandsat⟩ := c1_band_range_abort
  have h1 := hspot [⟨1, 1⟩] ⟨5, 1⟩ [] [3, 4] 2 [0, 0]
    (by intro p hp; simp at hp; subst hp; norm_num) (by norm_num)
  have h2 := hlandsat [] ⟨5, 0, 1, 0, 1⟩ [] [3] 2 [7]
    (by norm_num [truncInt]) (by intro p hp; simp at hp) (by norm_num)
  exact ⟨⟨h1.1, by simpa using h1.2 1 0 (by norm_num)⟩, h2.1⟩

/-- C2: the Landsat calibration treats a pixel as the border/no-data
sentinel exactly when its first band value truncates to 0 — in that case
every one of the `numOutBands` output entries is written 0, no band-range
check runs and no calibration arithmetic happens (no exception even with
out-of-range configured bands); otherwise (all bands in range) every output
band receives `gain * (bandValues[i] - qCalMin) + lMin`. -/
theorem c2_landsat_border_sentinel (gos : List LandsatRadianceGainsOffsets)
    (bv : List ℚ) (nb : Nat) (out : List ℚ) :
    (truncInt (bv.getD 0 0) = 0 →
      (landsatCalcImageValue gos bv nb out).err = none ∧
      (∀ i d, i < gos.length → i < out.length →
        (landsatCalcImageValue gos bv nb out).output.getD i d = 0) ∧
      (∀ k d, gos.length ≤ k →
        (landsatCalcImageValue gos bv nb out).output.getD k d =
          out.getD k d)) ∧
    (truncInt (bv.getD 0 0) ≠ 0 → (∀ g ∈ gos, g.band ≤ nb) →
      (landsatCalcImageValue gos bv nb out).err = none ∧
      ∀ i d (g₀ : LandsatRadianceGainsOffsets), i < gos.length →
        i < out.length →
        (landsatCalcImageValue gos bv nb out).output.getD i d =
          landsatFormula (gos.getD i g₀) (bv.getD i 0)) := by
  constructor
  · intro hb
    have hcall : landsatCalcImageValue gos bv nb out =
        ⟨none, writeZeros gos.length 0 out⟩ := by
      unfold landsatCalcImageValue
      rw [if_pos hb]
    rw [hcall]
    refine ⟨rfl, fun i d hi hio => ?_, fun k d hk => ?_⟩
    · exact writeZeros_getD_in gos.length 0 out i d (Nat.zero_le i)
        (by omega) hio
    · exact writeZeros_getD_hi gos.length 0 out k d (by omega)
  · intro hb hband
    have hcall : landsatCalcImageValue gos bv nb out =
        calibLoop LandsatRadianceGainsOffsets.band landsatFormula
          gos bv nb 0 out := by
      unfold landsatCalcImageValue
      rw [if_neg hb]
    rw [hcall, calibLoop_ok _ _ gos bv nb 0 out hband]
    refine ⟨rfl, fun i d g₀ hi hio => ?_⟩
    have h := calibWrite_getD_eq landsatFormula g₀ gos bv 0 out i d
      (Nat.zero_le i) (by omega) hio
    simpa using h

/-- Witness for C2: a border pixel zeroes the outputs with no band check,
and a valid pixel gets the gain formula. -/
theorem c2_landsat_border_sentinel_witness :
    ((landsatCalcImageValue [⟨5, 0, 1, 0, 1⟩] [0] 1 [7, 9]).err = none ∧
      (landsatCalcImageValue [⟨5, 0, 1, 0, 1⟩] [0] 1 [7, 9]).output.getD
        0 0 = (0 : ℚ) ∧
      (landsatCalcImageValue [⟨5, 0, 1, 0, 1⟩] [0] 1 [7, 9]).output.getD
        1 0 = (9 : ℚ)) ∧
    (landsatCalcImageValue [⟨1, 1, 3, 0, 2⟩] [2] 1 [7]).output.getD 0 0 =
      landsatFormula ⟨1, 1, 3, 0, 2⟩ 2 := by
  have h1 := (c2_landsat_border_sentinel [⟨5, 0, 1, 0, 1⟩] [0] 1 [7, 9]).1
    (by norm_num [truncInt])
  have h2 := (c2_landsat_border_sentinel [⟨1, 1, 3, 0, 2⟩] [2] 1 [7]).2
    (by norm_num [truncInt])
    (by intro g hg; simp at hg; subst hg; norm_num)
  refine ⟨⟨h1.1, h1.2.1 0 0 (by norm_num) (by norm_num), ?_⟩, ?_⟩
  · simpa using h1.2.2 1 0 (by norm_num)
  · have := h2.2 0 0 ⟨1, 1, 3, 0, 2⟩ (by norm_num) (by norm_num)
    simpa using this

/-- C8: the WorldView2 and 16-bit Quickbird calibrations are extensionally
equal — run on per-band parameters sharing band, calFactor and
bandIntegrate, they return identical results (same outputs, same
band-range exception behaviour) on every input. -/
theorem c8_worldview2_eq_quickbird16
    (gos : List Quickbird16bitRadianceGainsOffsets) (bv : List ℚ)
    (nb : Nat) (out : List ℚ) :
    worldView2CalcImageValue (gos.map toWorldView2) bv nb out =
      quickbird16bitCalcImageValue gos bv nb out := by
  unfold worldView2CalcImageValue quickbird16bitCalcImageValue
  exact calibLoop_map _ _ _ _ toWorldView2 (fun g => rfl)
    (fun g x => mul_comm g.calFactor x ▸ rfl) gos bv nb 0 out

/-- C9: with identical band, calFactor and bandIntegrate parameters and all
configured bands in range, every 8-bit Quickbird output band equals the
per-band factor `k` times the corresponding 16-bit Quickbird output. -/
theorem c9_qb8_eq_k_mul_qb16
    (gos : List Quickbird8bitRadianceGainsOffsets) (bv : List ℚ) (nb : Nat)
    (out : List ℚ) (g₀ : Quickbird8bitRadianceGainsOffsets)
    (hband : ∀ g ∈ gos, g.band ≤ nb) (i : Nat) (hi : i < gos.length)
    (hio : i < out.length) :
    (quickbird8bitCalcImageValue gos bv nb out).output.getD i 0 =
      (gos.getD i g₀).k *
        (quickbird16bitCalcImageValue (gos.map toQuickbird16bit) bv nb
          out).output.getD i 0 := by
  have hband' : ∀ g' ∈ gos.map toQuickbird16bit, g'.band ≤ nb := by
    intro g' hg'
    obtain ⟨g, hg, rfl⟩ := List.mem_map.mp hg'
    exact hband g hg
  unfold quickbird8bitCalcImageValue quickbird16bitCalcImageValue
  rw [calibLoop_ok _ _ gos bv nb 0 out hband,
    calibLoop_ok _ _ (gos.map toQuickbird16bit) bv nb 0 out hband']
  have h8 := calibWrite_getD_eq
    (fun g : Quickbird8bitRadianceGainsOffsets =>
      fun v => v * g.calFactor * g.k / g.bandIntegrate) g₀ gos bv 0 out i 0
    (Nat.zero_le i) (by omega) hio
  have h16 := calibWrite_getD_eq
    (fun g : Quickbird16bitRadianceGainsOffsets =>
      fun v => v * g.calFactor / g.bandIntegrate) (toQuickbird16bit g₀)
    (gos.map toQuickbird16bit) bv 0 out i 0 (Nat.zero_le i)
    (by simpa using hi) hio
  simp only [Nat.sub_zero] at h8 h16
  rw [h8, h16, getD_map toQuickbird16bit gos i g₀]
  show _ = (gos.getD i g₀).k *
    ((bv.getD i 0) * (gos.getD i g₀).calFactor / (gos.getD i g₀).bandIntegrate)
  ring

/-- Witness for C9 at a concrete one-band configuration. -/
theorem c9_qb8_eq_k_mul_qb16_witness :
    (quickbird8bitCalcImageValue [⟨1, 2, 3, 4⟩] [5] 1 [0]).output.getD
      0 0 =
      (([⟨1, 2, 3, 4⟩] :
        List Quickbird8bitRadianceGainsOffsets).getD 0 ⟨1, 2, 3, 4⟩).k *
        (quickbird16bitCalcImageValue
          (([⟨1, 2, 3, 4⟩] :
            List Quickbird8bitRadianceGainsOffsets).map toQuickbird16bit)
          [5] 1 [0]).output.getD 0 0 :=
  c9_qb8_eq_k_mul_qb16 [⟨1, 2, 3, 4⟩] [5] 1 [0] ⟨1, 2, 3, 4⟩
    (by intro g hg; simp at hg; subst hg; norm_num) 0 (by norm_num)
    (by norm_num)

/-- C10: the configured band number feeds only the range check and never
selects the input value — two SPOT (resp. IRS) configurations that agree on
every formula field, with all configured bands in range, produce identical
results regardless of their band numbers, because the value calibrated for
output band `i` is always `bandValues[i]`. -/
theorem c10_band_number_never_selects_input :
    (∀ (gos gos' : List SPOTRadianceGainsOffsets) (bv : List ℚ) (nb : Nat)
      (out : List ℚ),
      List.Forall₂ (fun g g' =>
        g.gain = g'.gain ∧ g.band ≤ nb ∧ g'.band ≤ nb) gos gos' →
      spotCalcImageValue gos bv nb out =
        spotCalcImageValue gos' bv nb out) ∧
    (∀ (gos gos' : List IRSRadianceGainsOffsets) (bv : List ℚ) (nb : Nat)
      (out : List ℚ),
      List.Forall₂ (fun g g' =>
        g.lMin = g'.lMin ∧ g.lMax = g'.lMax ∧ g.qCalMin = g'.qCalMin ∧
          g.qCalMax = g'.qCalMax ∧ g.band ≤ nb ∧ g'.band ≤ nb) gos gos' →
      irsCalcImageValue gos bv nb out =
        irsCalcImageValue gos' bv nb out) := by
  constructor
  · intro gos gos' bv nb out h
    unfold spotCalcImageValue
    refine calibLoop_congr _ _ nb (h.imp ?_) bv 0 out
    rintro g g' ⟨hgain, hb, hb'⟩
    exact ⟨hb, hb', fun x => by rw [hgain]⟩
  · intro gos gos' bv nb out h
    unfold irsCalcImageValue
    refine calibLoop_congr _ _ nb (h.imp ?_) bv 0 out
    rintro g g' ⟨h1, h2, h3, h4, hb, hb'⟩
    exact ⟨hb, hb', fun x => by unfold irsFormula; rw [h1, h2, h3, h4]⟩

/-- Witness for C10: changing only the (in-range) band numbers leaves both
the SPOT and the IRS results unchanged. -/
theorem c10_band_number_never_selects_input_witness :
    spotCalcImageValue [⟨1, 2⟩] [4] 2 [0] =
      spotCalcImageValue [⟨2, 2⟩] [4] 2 [0] ∧
    irsCalcImageValue [⟨1, 0, 1, 0, 1⟩] [4] 2 [0] =
      irsCalcImageValue [⟨2, 0, 1, 0, 1⟩] [4] 2 [0] := by
  obtain ⟨hspot, hirs⟩ := c10_band_number_never_selects_input
  constructor
  · exact hspot [⟨1, 2⟩] [⟨2, 2⟩] [4] 2 [0]
      (List.Forall₂.cons ⟨rfl, by norm_num, by norm_num⟩ List.Forall₂.nil)
  · exact hirs [⟨1, 0, 1, 0, 1⟩] [⟨2, 0, 1, 0, 1⟩] [4] 2 [0]
      (List.Forall₂.cons ⟨rfl, rfl, rfl, rfl, by norm_num, by norm_num⟩
        List.Forall₂.nil)

/-- C3: for every valid (non-border) pixel vector and every published
centroid set, the Accumulator pass and the Labeler pass select the same
nearest centroid — minimum Euclidean distance with ties broken in favour of
the first (lowest-ID) centroid in iteration order. -/
theorem c3_accumulator_labeler_consistent (v : List ℚ)
    (cs : List ClusterCentreISO) (h : truncInt (v.getD 0 0) ≠ 0) :
    accumChoose v cs = labelFindClosest v cs := by
  unfold accumChoose
  rw [if_neg h]
  cases cs with
  | nil => rfl
  | cons c t =>
      unfold accumFindClosest
      rw [List.foldl_cons]
      show List.foldl _ (some c) t = _
      rw [accumFoldl_some]
      cases ht : labelFindClosest v t with
      | none => simp [labelFindClosest, ht]
      | some e => simp [labelFindClosest, ht, apply_ite some]

/-- Witness for C3 at a concrete pixel and centroid set. -/
theorem c3_accumulator_labeler_consistent_witness :
    accumChoose [5] [⟨0, [1], [], 0⟩, ⟨1, [6], [], 0⟩] =
      labelFindClosest [5] [⟨0, [1], [], 0⟩, ⟨1, [6], [], 0⟩] :=
  c3_accumulator_labeler_consistent [5] _ (by norm_num [truncInt])

/-- C7: the merge operation of the Refinement Controller is idempotent —
for every centroid set and merge threshold, applying
`mergeClusterCentres` twice yields the same set as applying it once. -/
theorem c7_merge_idempotent (thr : ℚ) (cs : List ClusterCentreISO) :
    mergeClusterCentres thr (mergeClusterCentres thr cs) =
      mergeClusterCentres thr cs := by
  have h := mergeIter_none thr cs.length cs (le_refl _)
  exact mergeIter_fix thr _ h

/-- C6: in each of the three concrete ISODATA visitor classes, every
`calcImageValue` overload other than the single one the class uses throws an
`RSGISImageCalcException` ("Not Implemented" in its header spelling) on
every input: eight unused Accumulator overloads, eight unused Std-Dev
overloads and eight unused Labeler overloads, all unconditionally failing. -/
theorem c6_unused_overloads_always_throw :
    (∀ bv nb out, RSGISISODATACalcPixelClusterCalcImageVal.calcImageValueOut
      bv nb out = .error "Not Implemented") ∧
    (∀ ibv ni fbv nf,
      RSGISISODATACalcPixelClusterCalcImageVal.calcImageValueIntFloat
        ibv ni fbv nf = .error "Not implemented") ∧
    (∀ ibv ni fbv nf out,
      RSGISISODATACalcPixelClusterCalcImageVal.calcImageValueIntFloatOut
        ibv ni fbv nf out = .error "Not implemented") ∧
    (∀ bv nb ext,
      RSGISISODATACalcPixelClusterCalcImageVal.calcImageValueExtent
        bv nb ext = .error "Not Implemented") ∧
    (∀ bv nb out ext,
      RSGISISODATACalcPixelClusterCalcImageVal.calcImageValueOutExtent
        bv nb out ext = .error "Not Implemented") ∧
    (∀ db nb ws out,
      RSGISISODATACalcPixelClusterCalcImageVal.calcImageValueWindow
        db nb ws out = .error "Not Implemented") ∧
    (∀ db nb ws out ext,
      RSGISISODATACalcPixelClusterCalcImageVal.calcImageValueWindowExtent
        db nb ws out ext = .error "No implemented") ∧
    (∀ db nb ws out,
      RSGISISODATACalcPixelClusterCalcImageVal.calcImageValueCondition
        db nb ws out = .error "Not Implemented") ∧
    (∀ bv nb out,
      RSGISISODATACalcPixelClusterStdDevCalcImageVal.calcImageValueOut
        bv nb out = .error "Not Implemented") ∧
    (∀ ibv ni fbv nf,
      RSGISISODATACalcPixelClusterStdDevCalcImageVal.calcImageValueIntFloat
        ibv ni fbv nf = .error "Not implemented") ∧
    (∀ ibv ni fbv nf out,
      RSGISISODATACalcPixelClusterStdDevCalcImageVal.calcImageValueIntFloatOut
        ibv ni fbv nf out = .error "Not implemented") ∧
    (∀ bv nb ext,
      RSGISISODATACalcPixelClusterStdDevCalcImageVal.calcImageValueExtent
        bv nb ext = .error "Not Implemented") ∧
    (∀ bv nb out ext,
      RSGISISODATACalcPixelClusterStdDevCalcImageVal.calcImageValueOutExtent
        bv nb out ext = .error "Not Implemented") ∧
    (∀ db nb ws out,
      RSGISISODATACalcPixelClusterStdDevCalcImageVal.calcImageValueWindow
        db nb ws out = .error "Not Implemented") ∧
    (∀ db nb ws out ext,
      RSGISISODATACalcPixelClusterStdDevCalcImageVal.calcImageValueWindowExtent
        db nb ws out ext = .error "No implemented") ∧
    (∀ db nb ws out,
      RSGISISODATACalcPixelClusterStdDevCalcImageVal.calcImageValueCondition
        db nb ws out = .error "Not Implemented") ∧
    (∀ bv nb,
      RSGISApplyISODATAClassifierCalcImageVal.calcImageValueStat
        bv nb = .error "Not Implemented") ∧
    (∀ ibv ni fbv nf,
      RSGISApplyISODATAClassifierCalcImageVal.calcImageValueIntFloat
        ibv ni fbv nf = .error "Not implemented") ∧
    (∀ ibv ni fbv nf out,
      RSGISApplyISODATAClassifierCalcImageVal.calcImageValueIntFloatOut
        ibv ni fbv nf out = .error "Not implemented") ∧
    (∀ bv nb ext,
      RSGISApplyISODATAClassifierCalcImageVal.calcImageValueExtent
        bv nb ext = .error "Not Implemented") ∧
    (∀ bv nb out ext,
      RSGISApplyISODATAClassifierCalcImageVal.calcImageValueOutExtent
        bv nb out ext = .error "Not Implemented") ∧
    (∀ db nb ws out,
      RSGISApplyISODATAClassifierCalcImageVal.calcImageValueWindow
        db nb ws out = .error "Not Implemented") ∧
    (∀ db nb ws out ext,
      RSGISApplyISODATAClassifierCalcImageVal.calcImageValueWindowExtent
        db nb ws out ext = .error "No implemented") ∧
    (∀ db nb ws out,
      RSGISApplyISODATAClassifierCalcImageVal.calcImageValueCondition
        db nb ws out = .error "Not Implemented") :=
  ⟨fun _ _ _ => rfl, fun _ _ _ _ => rfl, fun _ _ _ _ _ => rfl,
   fun _ _ _ => rfl, fun _ _ _ _ => rfl, fun _ _ _ _ => rfl,
   fun _ _ _ _ _ => rfl, fun _ _ _ _ => rfl,
   fun _ _ _ => rfl, fun _ _ _ _ => rfl, fun _ _ _ _ _ => rfl,
   fun _ _ _ => rfl, fun _ _ _ _ => rfl, fun _ _ _ _ => rfl,
   fun _ _ _ _ _ => rfl, fun _ _ _ _ => rfl,
   fun _ _ => rfl, fun _ _ _ _ => rfl, fun _ _ _ _ _ => rfl,
   fun _ _ _ => rfl, fun _ _ _ _ => rfl, fun _ _ _ _ => rfl,
   fun _ _ _ _ _ => rfl, fun _ _ _ _ => rfl⟩

end RSGISLib
